import Mathlib

/-!
Shallow embedding of the AI-Marketing-Content-Gallery repository:
* `src/content-generator-function/main.py` — the cloud-function pipeline
  `process_csv_and_generate_content` (CSV parsing, per-row text/image
  generation, image upload, quarantine relocation, warehouse insert);
* `src/frontend-app/app.py` — the Streamlit dashboard query and grid layout.

External services (object storage, the generative model, the warehouse) are
modelled as oracles: each fallible call is an `Except Unit _` value or a
"throws" flag supplied by the environment, and every side effect the code
performs is recorded as an `Event` in an explicit trace.  The Python
exception handling of the source (try/except blocks that catch, log and
continue) is reflected by totalizing the corresponding Lean functions: a
caught exception produces the marker value the `except` branch assigns and
contributes no event for the operation that raised.
-/

namespace Gallery

/-- Image bytes, modelled as a list of byte values. -/
abbrev Bytes := List Nat

/-- Python string truthiness test for an `os.environ.get` result:
`not x` is true when the variable is unset (`None`) or set to `""`. -/
def pyFalsy : Option String → Bool
  | none => true
  | some s => s == ""

/-- Python `str.strip()` whitespace set (space, tab, LF, CR, VT, FF). -/
def pyIsSpace (c : Char) : Bool :=
  c == ' ' || c == '\t' || c == '\n' || c == '\r' || c == '\x0b' || c == '\x0c'

/-- Python `str.strip()` with no argument: drop leading and trailing whitespace. -/
def pyStrip (s : String) : String :=
  String.mk (((s.data.dropWhile pyIsSpace).reverse.dropWhile pyIsSpace).reverse)

/-- Python `pat in s` (substring containment), on the underlying char lists. -/
def containsSubstr (s pat : String) : Bool :=
  s.data.tails.any (fun t => pat.data.isPrefixOf t)

/-- Python `str.lower()` (per-character lowering). -/
def pyLower (s : String) : String :=
  String.mk (s.data.map Char.toLower)

/-- Python `s.replace(' ', '_')`: single-char replacement is a map. -/
def replaceSpaces (s : String) : String :=
  String.mk (s.data.map (fun c => if c == ' ' then '_' else c))

/-- One content part of the image model's response; `inline_data = none`
models a part whose `inline_data` attribute is `None`, so that accessing
`.inline_data.data` raises `AttributeError` inside the `try` block. -/
structure ImagePart where
  inline_data : Option Bytes
deriving DecidableEq

/-- The image model's response: `hasParts` models
`hasattr(image_response, 'parts')`; `parts` models `image_response.parts`. -/
structure ImageResponse where
  hasParts : Bool
  parts : List ImagePart
deriving DecidableEq

/-- Per-row oracle for the external calls made while processing one CSV row:
the text model call (`.ok` carries `text_response.text`), the image model
call, whether `upload_from_file` raises, the uploaded blob's `public_url`,
`int(datetime.utcnow().timestamp())`, and `datetime.utcnow().isoformat()`. -/
structure RowEnv where
  textResult : Except Unit String
  imageResult : Except Unit ImageResponse
  uploadThrows : Bool
  publicUrl : String
  timestamp : Int
  processedAt : String

/-- The record dict appended to `rows_to_insert` for one processed row. -/
structure Record where
  product_name : String
  keywords : String
  generated_content : String
  generated_image_url : String
  source_file : String
  processed_at : String
deriving DecidableEq

/-- Observable side effects of one invocation, in order of occurrence.
Only operations that completed are recorded: an external call that raised
(and was caught by the source's `except`) leaves no event for the raising
operation. -/
inductive Event where
  | download (bucket name : String)
  | textCall (prompt : String)
  | imageCall (prompt : String)
  | uploadImage (bucket : Option String) (name : String) (data' : Bytes)
      (contentType : String)
  | copyBlob (srcBucket destBucket name : String)
  | deleteBlob (bucket name : String)
  | bqInsert (rows : List Record)
deriving DecidableEq

/-- Environment configuration read at the top of the handler. -/
structure Config where
  GCP_PROJECT_ID : Option String
  GCP_REGION : Option String
  BQ_DATASET : Option String
  BQ_TABLE : Option String
  FAILED_BUCKET_NAME : Option String
  PRODUCT_IMAGES_BUCKET_NAME : Option String
  GOOGLE_API_KEY : Option String
deriving DecidableEq

/-- File-level oracle: the outcome of downloading and CSV-parsing the blob
(`.ok rows` is the full parsed row list, header included; `.error` is any
exception raised while downloading, parsing, or iterating), whether
`copy_blob` / `delete` / `insert_rows_json` raise, and the per-row oracles
indexed by the row's enumeration index. -/
structure FileEnv where
  download : Except Unit (List (List String))
  copyThrows : Bool
  deleteThrows : Bool
  insertThrows : Bool
  rowEnvs : Nat → RowEnv

/-- The text prompt built for a row (line 103 of main.py). -/
def textPrompt (product_name keywords : String) : String :=
  "Write a short, exciting marketing description for a product named '" ++
    product_name ++ "' that is '" ++ keywords ++
    "'. The description should be one paragraph."

/-- The image prompt built for a row (line 113 of main.py): embeds the
product name and the first 100 characters of the generated text. -/
def imagePrompt (product_name generated_text : String) : String :=
  "A professional, high-resolution marketing photo, studio lighting, of: " ++
    product_name ++ ", " ++ (generated_text.take 100)

/-- The uploaded image object's name (line 129 of main.py):
`product_name.replace(' ', '_').lower()` + `_` + unix timestamp + `.png`. -/
def imageBlobName (product_name : String) (timestamp : Int) : String :=
  pyLower (replaceSpaces product_name) ++ "_" ++ toString timestamp ++ ".png"

/-- The text step for one row (lines 101-107): on success `generated_text`
is the stripped model text; any exception is caught and the marker is
assigned. -/
def textStep (env : RowEnv) : String :=
  match env.textResult with
  | .ok t => pyStrip t
  | .error _ => "Error: Text generation failed."

/-- The gate on the image step (line 111):
`if generated_text and "Error:" not in generated_text`. -/
def textOk (generated_text : String) : Bool :=
  generated_text != "" && !(containsSubstr generated_text "Error:")

/-- The image step for one row that passed the gate (lines 112-140):
returns the `generated_image_url` value and the events it performed. -/
def imageStep (imagesBucket : Option String) (product_name generated_text : String)
    (env : RowEnv) : String × List Event :=
  let call := Event.imageCall (imagePrompt product_name generated_text)
  match env.imageResult with
  | .error _ => ("Error: Image generation failed.", [call])
  | .ok resp =>
    if resp.hasParts then
      match resp.parts with
      | [] => ("Error: No image returned.", [call])
      | part :: _ =>
        match part.inline_data with
        | none =>
          -- parts[0].inline_data is None: `.data` raises AttributeError,
          -- caught by the except at line 141.
          ("Error: Image generation failed.", [call])
        | some bytes =>
          if env.uploadThrows then
            ("Error: Image generation failed.", [call])
          else
            (env.publicUrl,
             [call,
              Event.uploadImage imagesBucket
                (imageBlobName product_name env.timestamp) bytes "image/png"])
    else ("Error: No image returned.", [call])

/-- Processing of one row that survived both skip checks (lines 99-153):
text step, gated image step, record assembly.  `product_name` and
`keywords` are the already-stripped first two fields. -/
def processValidRow (bucket_name file_name : String) (imagesBucket : Option String)
    (product_name keywords : String) (env : RowEnv) : Record × List Event :=
  let generated_text := textStep env
  let img :=
    if textOk generated_text then
      imageStep imagesBucket product_name generated_text env
    else
      ("Skipped: Text generation failed.", [])
  ({ product_name := product_name
     keywords := keywords
     generated_content := generated_text
     generated_image_url := img.1
     source_file := "gs://" ++ bucket_name ++ "/" ++ file_name
     processed_at := env.processedAt },
   Event.textCall (textPrompt product_name keywords) :: img.2)

/-- The row loop's accumulation into `rows_to_insert` (lines 87-153):
rows with fewer than 2 fields are skipped, rows whose first two stripped
fields are both empty are skipped, every other row appends one record.
(The source's single loop is split into this record accumulator and the
event accumulator `rowsEvents`; both traverse the rows identically.) -/
def rowsToInsert (bucket_name file_name : String) (imagesBucket : Option String)
    (envs : Nat → RowEnv) : List (List String) → Nat → List Record
  | [], _ => []
  | row :: rest, i =>
    if row.length < 2 then
      rowsToInsert bucket_name file_name imagesBucket envs rest (i + 1)
    else
      let product_name := pyStrip (row.getD 0 "")
      let keywords := pyStrip (row.getD 1 "")
      if product_name == "" && keywords == "" then
        rowsToInsert bucket_name file_name imagesBucket envs rest (i + 1)
      else
        (processValidRow bucket_name file_name imagesBucket product_name keywords
          (envs i)).1 ::
          rowsToInsert bucket_name file_name imagesBucket envs rest (i + 1)

/-- The events performed by the row loop, in order. -/
def rowsEvents (bucket_name file_name : String) (imagesBucket : Option String)
    (envs : Nat → RowEnv) : List (List String) → Nat → List Event
  | [], _ => []
  | row :: rest, i =>
    if row.length < 2 then
      rowsEvents bucket_name file_name imagesBucket envs rest (i + 1)
    else
      let product_name := pyStrip (row.getD 0 "")
      let keywords := pyStrip (row.getD 1 "")
      if product_name == "" && keywords == "" then
        rowsEvents bucket_name file_name imagesBucket envs rest (i + 1)
      else
        (processValidRow bucket_name file_name imagesBucket product_name keywords
          (envs i)).2 ++
          rowsEvents bucket_name file_name imagesBucket envs rest (i + 1)

/-- The helper `move_to_failed_bucket` (lines 57-72): no-op when the quarantine bucket
is unset or empty; otherwise copy then delete, where an op that raises is
caught (producing no event and aborting the remainder of the `try`). -/
def move_to_failed_bucket (cfg : Config) (env : FileEnv)
    (bucket_name file_name : String) : List Event :=
  match cfg.FAILED_BUCKET_NAME with
  | none => []
  | some fb =>
    if fb == "" then []
    else if env.copyThrows then []
    else if env.deleteThrows then [Event.copyBlob bucket_name fb file_name]
    else
      [Event.copyBlob bucket_name fb file_name,
       Event.deleteBlob bucket_name file_name]

/-- The outcome of one invocation: the event trace and the handler's return
value (`none` models a bare `return`; `some "OK"` the final `return "OK"`). -/
structure InvocationOutcome where
  events : List Event
  retVal : Option String
deriving DecidableEq

/-- The full handler `process_csv_and_generate_content` (main.py).
Missing/empty API key returns immediately (lines 38-40).  A download/parse
exception, or a file with no header row (`next(reader)` raising, re-raised
as `ValueError`), is caught at line 158 and quarantines the file, returning
without the warehouse write.  Otherwise the row loop runs, and the insert is
attempted only when `rows_to_insert` is non-empty (line 164). -/
def process_csv_and_generate_content (cfg : Config) (env : FileEnv)
    (bucket_name file_name : String) : InvocationOutcome :=
  if pyFalsy cfg.GOOGLE_API_KEY then
    { events := [], retVal := none }
  else
    match env.download with
    | .error _ =>
      { events := move_to_failed_bucket cfg env bucket_name file_name
        retVal := none }
    | .ok [] =>
      { events := Event.download bucket_name file_name ::
          move_to_failed_bucket cfg env bucket_name file_name
        retVal := none }
    | .ok (_header :: dataRows) =>
      let recs := rowsToInsert bucket_name file_name
        cfg.PRODUCT_IMAGES_BUCKET_NAME env.rowEnvs dataRows 0
      let evs := rowsEvents bucket_name file_name
        cfg.PRODUCT_IMAGES_BUCKET_NAME env.rowEnvs dataRows 0
      let insertEvs :=
        if recs.isEmpty then []
        else if env.insertThrows then []
        else [Event.bqInsert recs]
      { events := Event.download bucket_name file_name :: (evs ++ insertEvs)
        retVal := some "OK" }

/-- A data row that contributes a record: at least 2 fields, and at least
one of the first two fields non-empty after stripping. -/
def validRow (row : List String) : Bool :=
  2 ≤ row.length &&
    (pyStrip (row.getD 0 "") != "" || pyStrip (row.getD 1 "") != "")

theorem rowsToInsert_length (bucket_name file_name : String)
    (imagesBucket : Option String) (envs : Nat → RowEnv)
    (rows : List (List String)) (i : Nat) :
    (rowsToInsert bucket_name file_name imagesBucket envs rows i).length =
      (rows.filter validRow).length := by
  induction rows generalizing i with
  | nil => simp [rowsToInsert]
  | cons row rest ih =>
    simp only [rowsToInsert]
    by_cases hlen : row.length < 2
    · have hv : validRow row = false := by
        simp only [validRow, Bool.and_eq_false_iff]
        left
        simpa using hlen
      rw [if_pos hlen, List.filter_cons, hv]
      simpa using ih (i + 1)
    · by_cases hempty :
        (pyStrip (row.getD 0 "") == "" && pyStrip (row.getD 1 "") == "") = true
      · have hv : validRow row = false := by
          simp only [Bool.and_eq_true, beq_iff_eq] at hempty
          simp only [validRow, Bool.and_eq_false_iff]
          right
          simp only [Bool.or_eq_false_iff, bne_eq_false_iff_eq]
          exact ⟨hempty.1, hempty.2⟩
        rw [if_neg hlen, if_pos hempty, List.filter_cons, hv]
        simpa using ih (i + 1)
      · have hv : validRow row = true := by
          simp only [Bool.and_eq_true, beq_iff_eq, not_and] at hempty
          simp only [validRow, Bool.and_eq_true, decide_eq_true_eq,
            Bool.or_eq_true, bne_iff_ne, ne_eq]
          refine ⟨by omega, ?_⟩
          by_cases h0 : pyStrip (row.getD 0 "") = ""
          · exact Or.inr (hempty h0)
          · exact Or.inl h0
        rw [if_neg hlen, if_neg hempty, List.filter_cons, hv]
        simpa using ih (i + 1)

/-- Recognizer for image-model invocation events. -/
def isImageCall : Event → Bool
  | .imageCall _ => true
  | _ => false

/-- Whether an event trace contains an image-model invocation. -/
def hasImageCall (evs : List Event) : Bool := evs.any isImageCall

theorem processValidRow_snd (bucket_name file_name : String)
    (imagesBucket : Option String) (product_name keywords : String)
    (env : RowEnv) :
    (processValidRow bucket_name file_name imagesBucket product_name keywords
        env).2 =
      Event.textCall (textPrompt product_name keywords) ::
        (if textOk (textStep env) then
          (imageStep imagesBucket product_name (textStep env) env).2
         else []) := by
  by_cases h : textOk (textStep env) = true <;>
    simp [processValidRow, h]

theorem processValidRow_url (bucket_name file_name : String)
    (imagesBucket : Option String) (product_name keywords : String)
    (env : RowEnv) :
    (processValidRow bucket_name file_name imagesBucket product_name keywords
        env).1.generated_image_url =
      if textOk (textStep env) then
        (imageStep imagesBucket product_name (textStep env) env).1
      else "Skipped: Text generation failed." := by
  by_cases h : textOk (textStep env) = true <;>
    simp [processValidRow, h]

theorem imageStep_has_call (imagesBucket : Option String)
    (product_name generated_text : String) (env : RowEnv) :
    hasImageCall (imageStep imagesBucket product_name generated_text env).2 =
      true := by
  unfold imageStep
  split
  · simp [hasImageCall, isImageCall]
  · split
    · split
      · simp [hasImageCall, isImageCall]
      · split
        · simp [hasImageCall, isImageCall]
        · split
          · simp [hasImageCall, isImageCall]
          · simp [hasImageCall, isImageCall]
    · simp [hasImageCall, isImageCall]

theorem textOk_iff (generated_text : String) :
    textOk generated_text = true ↔
      (generated_text ≠ "" ∧ containsSubstr generated_text "Error:" = false) := by
  simp [textOk]

theorem imageStep_upload_mem (imagesBucket b : Option String)
    (product_name generated_text : String) (env : RowEnv)
    (n : String) (d : Bytes) (ct : String)
    (h : Event.uploadImage b n d ct ∈
      (imageStep imagesBucket product_name generated_text env).2) :
    b = imagesBucket ∧ n = imageBlobName product_name env.timestamp ∧
      ct = "image/png" := by
  unfold imageStep at h
  split at h
  · simp at h
  · split at h
    · split at h
      · simp at h
      · split at h
        · simp at h
        · split at h
          · simp at h
          · simp only [List.mem_cons, List.mem_singleton] at h
            rcases h with h | h | h
            · exact absurd h (by simp)
            · rw [Event.uploadImage.injEq] at h
              exact ⟨h.1, h.2.1, h.2.2.2⟩
            · simp at h
    · simp at h

/-- SQL `LIKE 'Error%'` (a literal-prefix pattern): a prefix test, on the
underlying char lists. -/
def strStartsWith (s pre : String) : Bool :=
  pre.data.isPrefixOf s.data

/-- The warehouse table row as seen by the dashboard (app.py): the queried
columns plus the ordering column `processed_at` (an ISO-8601 string, whose
lexicographic order is its chronological order). -/
structure BqRow where
  product_name : String
  keywords : String
  generated_content : Option String
  generated_image_url : Option String
  processed_at : String
deriving DecidableEq

/-- The query's WHERE clause (app.py lines 25-26):
`generated_image_url IS NOT NULL AND generated_image_url NOT LIKE 'Error%'`.
A NULL url fails `IS NOT NULL`; `LIKE 'Error%'` is a prefix test. -/
def rowQualifies (r : BqRow) : Bool :=
  match r.generated_image_url with
  | none => false
  | some u => !(strStartsWith u "Error")

/-- The `ORDER BY processed_at DESC` comparison. -/
def descByProcessedAt (a b : BqRow) : Bool :=
  decide (b.processed_at ≤ a.processed_at)

/-- The dashboard's one fixed query (app.py lines 22-29): filter by the
WHERE clause, order by `processed_at` descending, `LIMIT 20`. -/
def dashboardQuery (table : List BqRow) : List BqRow :=
  ((table.filter rowQualifies).mergeSort descByProcessedAt).take 20

/-- The render loop (app.py lines 36-37): the card for the result at
enumeration index `i` is placed in grid column `i % 3` (`cols[i % 3]`). -/
def galleryColumns (results : List BqRow) : List (Nat × BqRow) :=
  results.enum.map (fun p => (p.1 % 3, p.2))

theorem rowQualifies_iff (r : BqRow) :
    rowQualifies r = true ↔
      ∃ u, r.generated_image_url = some u ∧ strStartsWith u "Error" = false := by
  rcases h : r.generated_image_url with _ | u <;> simp [rowQualifies, h]

theorem descByProcessedAt_trans : ∀ (a b c : BqRow),
    descByProcessedAt a b → descByProcessedAt b c → descByProcessedAt a c := by
  intro a b c hab hbc
  simp only [descByProcessedAt, decide_eq_true_eq] at hab hbc ⊢
  exact le_trans hbc hab

theorem descByProcessedAt_total : ∀ (a b : BqRow),
    descByProcessedAt a b || descByProcessedAt b a := by
  intro a b
  simp only [descByProcessedAt, Bool.or_eq_true, decide_eq_true_eq]
  exact le_total _ _

theorem move_to_failed_bucket_ok (cfg : Config) (env : FileEnv)
    (bucket_name file_name fb : String)
    (hfb : cfg.FAILED_BUCKET_NAME = some fb) (hne : fb ≠ "")
    (hc : env.copyThrows = false) (hd : env.deleteThrows = false) :
    move_to_failed_bucket cfg env bucket_name file_name =
      [Event.copyBlob bucket_name fb file_name,
       Event.deleteBlob bucket_name file_name] := by
  simp [move_to_failed_bucket, hfb, hne, hc, hd]

theorem rowsToInsert_eq_nil (bucket_name file_name : String)
    (imagesBucket : Option String) (envs : Nat → RowEnv)
    (rows : List (List String)) (i : Nat)
    (h : rows.filter validRow = []) :
    rowsToInsert bucket_name file_name imagesBucket envs rows i = [] := by
  have hlen := rowsToInsert_length bucket_name file_name imagesBucket envs rows i
  rw [h] at hlen
  exact List.length_eq_zero.mp hlen

theorem rowsEvents_eq_nil (bucket_name file_name : String)
    (imagesBucket : Option String) (envs : Nat → RowEnv)
    (rows : List (List String)) (i : Nat)
    (h : ∀ row ∈ rows, validRow row = false) :
    rowsEvents bucket_name file_name imagesBucket envs rows i = [] := by
  revert h
  induction rows generalizing i with
  | nil =>
    intro _
    simp [rowsEvents]
  | cons row rest ih =>
    intro h
    have hrow := h row (List.mem_cons_self row rest)
    have hrest : ∀ r ∈ rest, validRow r = false := fun r hr =>
      h r (List.mem_cons_of_mem row hr)
    simp only [rowsEvents]
    simp only [validRow, Bool.and_eq_false_iff] at hrow
    by_cases hlen : row.length < 2
    · rw [if_pos hlen]
      exact ih (i + 1) hrest
    · rcases hrow with h1 | h2
      · exact absurd (by simpa using h1) hlen
      · simp only [Bool.or_eq_false_iff, bne_eq_false_iff_eq] at h2
        rw [if_neg hlen,
          if_pos (by simp only [Bool.and_eq_true, beq_iff_eq]; exact h2)]
        exact ih (i + 1) hrest

/-- Recognizer for image-upload events. -/
def isUploadEvent : Event → Bool
  | .uploadImage _ _ _ _ => true
  | _ => false

theorem imageStep_error (imagesBucket : Option String)
    (product_name generated_text : String) (env : RowEnv) (e : Unit)
    (hr : env.imageResult = .error e) :
    imageStep imagesBucket product_name generated_text env =
      ("Error: Image generation failed.",
       [Event.imageCall (imagePrompt product_name generated_text)]) := by
  simp [imageStep, hr]

theorem imageStep_no_parts (imagesBucket : Option String)
    (product_name generated_text : String) (env : RowEnv)
    (resp : ImageResponse) (hr : env.imageResult = .ok resp)
    (hp : resp.hasParts = false ∨ resp.parts = []) :
    imageStep imagesBucket product_name generated_text env =
      ("Error: No image returned.",
       [Event.imageCall (imagePrompt product_name generated_text)]) := by
  rcases hp with hp | hp
  · simp [imageStep, hr, hp]
  · by_cases hh : resp.hasParts = true
    · simp [imageStep, hr, hh, hp]
    · simp only [Bool.not_eq_true] at hh
      simp [imageStep, hr, hh]

theorem imageStep_first_part_no_data (imagesBucket : Option String)
    (product_name generated_text : String) (env : RowEnv)
    (resp : ImageResponse) (part : ImagePart) (rest : List ImagePart)
    (hr : env.imageResult = .ok resp) (hh : resp.hasParts = true)
    (hparts : resp.parts = part :: rest) (hd : part.inline_data = none) :
    imageStep imagesBucket product_name generated_text env =
      ("Error: Image generation failed.",
       [Event.imageCall (imagePrompt product_name generated_text)]) := by
  simp [imageStep, hr, hh, hparts, hd]

theorem imageStep_upload_throws (imagesBucket : Option String)
    (product_name generated_text : String) (env : RowEnv)
    (resp : ImageResponse) (part : ImagePart) (rest : List ImagePart)
    (bytes : Bytes) (hr : env.imageResult = .ok resp)
    (hh : resp.hasParts = true) (hparts : resp.parts = part :: rest)
    (hd : part.inline_data = some bytes) (hu : env.uploadThrows = true) :
    imageStep imagesBucket product_name generated_text env =
      ("Error: Image generation failed.",
       [Event.imageCall (imagePrompt product_name generated_text)]) := by
  simp [imageStep, hr, hh, hparts, hd, hu]

theorem imageStep_success (imagesBucket : Option String)
    (product_name generated_text : String) (env : RowEnv)
    (resp : ImageResponse) (part : ImagePart) (rest : List ImagePart)
    (bytes : Bytes) (hr : env.imageResult = .ok resp)
    (hh : resp.hasParts = true) (hparts : resp.parts = part :: rest)
    (hd : part.inline_data = some bytes) (hu : env.uploadThrows = false) :
    imageStep imagesBucket product_name generated_text env =
      (env.publicUrl,
       [Event.imageCall (imagePrompt product_name generated_text),
        Event.uploadImage imagesBucket
          (imageBlobName product_name env.timestamp) bytes "image/png"]) := by
  simp [imageStep, hr, hh, hparts, hd, hu]

end Gallery

namespace Gallery

/-- C1: the number of records appended to the insert batch equals the number
of data rows (header excluded) having at least 2 fields with at least one of
the first two fields non-empty after trimming. -/
theorem c1_record_count (bucket_name file_name : String)
    (imagesBucket : Option String) (envs : Nat → RowEnv)
    (dataRows : List (List String)) :
    (rowsToInsert bucket_name file_name imagesBucket envs dataRows 0).length =
      (dataRows.filter validRow).length :=
  rowsToInsert_length bucket_name file_name imagesBucket envs dataRows 0

/-- C2: the image-generation call is invoked for a processed row if and only
if the generated text is non-empty and does not contain the substring
"Error:"; when that condition fails, `generated_image_url` is the literal
"Skipped: Text generation failed." and the image model is never called. -/
theorem c2_image_gate (bucket_name file_name : String)
    (imagesBucket : Option String) (product_name keywords : String)
    (env : RowEnv) :
    (hasImageCall (processValidRow bucket_name file_name imagesBucket
          product_name keywords env).2 = true ↔
        (textStep env ≠ "" ∧ containsSubstr (textStep env) "Error:" = false)) ∧
    (¬(textStep env ≠ "" ∧ containsSubstr (textStep env) "Error:" = false) →
      (processValidRow bucket_name file_name imagesBucket product_name keywords
          env).1.generated_image_url = "Skipped: Text generation failed." ∧
      hasImageCall (processValidRow bucket_name file_name imagesBucket
          product_name keywords env).2 = false) := by
  have hsnd := processValidRow_snd bucket_name file_name imagesBucket
    product_name keywords env
  have hurl := processValidRow_url bucket_name file_name imagesBucket
    product_name keywords env
  by_cases h : textOk (textStep env) = true
  · have hcond := (textOk_iff (textStep env)).mp h
    constructor
    · rw [hsnd, if_pos h]
      simp only [hasImageCall, List.any_cons, isImageCall, Bool.false_or]
      exact ⟨fun _ => hcond,
        fun _ => imageStep_has_call imagesBucket product_name (textStep env) env⟩
    · intro hn
      exact absurd hcond hn
  · have hcond : ¬(textStep env ≠ "" ∧
        containsSubstr (textStep env) "Error:" = false) := fun hc =>
      h ((textOk_iff (textStep env)).mpr hc)
    have hfalse : textOk (textStep env) = false := by
      simpa using h
    constructor
    · rw [hsnd, if_neg (by simp [hfalse])]
      simp only [hasImageCall, List.any_cons, isImageCall, List.any_nil,
        Bool.or_false]
      exact ⟨fun hx => by simp at hx, fun hx => absurd hx hcond⟩
    · intro _
      refine ⟨by rw [hurl, if_neg (by simp [hfalse])], ?_⟩
      rw [hsnd, if_neg (by simp [hfalse])]
      simp [hasImageCall, isImageCall]

/-- An oracle for a row whose text generation throws (the text call raises,
caught at line 106 of main.py). -/
def envTextFail : RowEnv :=
  { textResult := .error ()
    imageResult := .ok { hasParts := true, parts := [{ inline_data := some [1] }] }
    uploadThrows := false
    publicUrl := "https://storage.example.com/imgs/widget_5.png"
    timestamp := 5
    processedAt := "2026-01-01T00:00:00" }

/-- Witness for C2 at a concrete row whose text generation fails. -/
theorem c2_image_gate_witness :
    (hasImageCall (processValidRow "b" "f" (some "imgs")
          "Widget" "blue" envTextFail).2 = true ↔
        (textStep envTextFail ≠ "" ∧
          containsSubstr (textStep envTextFail) "Error:" = false)) ∧
    (¬(textStep envTextFail ≠ "" ∧
          containsSubstr (textStep envTextFail) "Error:" = false) →
      (processValidRow "b" "f" (some "imgs") "Widget" "blue"
          envTextFail).1.generated_image_url =
        "Skipped: Text generation failed." ∧
      hasImageCall (processValidRow "b" "f" (some "imgs") "Widget" "blue"
          envTextFail).2 = false) :=
  c2_image_gate "b" "f" (some "imgs") "Widget" "blue" envTextFail

/-- A row oracle whose image response has a first part with no inline data
and a second part that does carry inline image bytes. -/
def envC3 : RowEnv :=
  { textResult := .ok "A lovely widget"
    imageResult := .ok
      { hasParts := true
        parts := [{ inline_data := none }, { inline_data := some [7] }] }
    uploadThrows := false
    publicUrl := "https://storage.example.com/imgs/widget_5.png"
    timestamp := 5
    processedAt := "2026-01-01T00:00:00" }

/-- C3 counterexample: a response in which SOME part (the second) carries
inline image data, yet the code — which reads only `parts[0]` — raises on
the first part's missing `inline_data`, records
"Error: Image generation failed." (not the claimed upload, and not
"Error: No image returned."), and uploads nothing. -/
theorem c3_counterexample :
    (∃ p ∈ (ImageResponse.mk true
        [{ inline_data := none }, { inline_data := some [7] }]).parts,
      p.inline_data.isSome = true) ∧
    envC3.imageResult = .ok (ImageResponse.mk true
        [{ inline_data := none }, { inline_data := some [7] }]) ∧
    textOk (textStep envC3) = true ∧
    (processValidRow "b" "f" (some "imgs") "Widget" "durable"
        envC3).1.generated_image_url = "Error: Image generation failed." ∧
    ((processValidRow "b" "f" (some "imgs") "Widget" "durable" envC3).2.all
      (fun e => !(isUploadEvent e))) = true :=
  ⟨by decide, rfl, by decide, by decide, by decide⟩

/-- C3 (amended): for a row whose image step is attempted — if the response
exposes a parts list whose FIRST part carries inline binary image data and
the upload does not throw, the bytes are uploaded as a PNG and the public
URL recorded; if the parts attribute is absent or the list empty,
`generated_image_url` is "Error: No image returned."; any exception (the
image call raising, the first part lacking inline data, or the upload
raising) is caught and recorded as "Error: Image generation failed." and
the row still yields its record. -/
theorem c3_image_step (bucket_name file_name : String)
    (imagesBucket : Option String) (product_name keywords : String)
    (env : RowEnv) (h : textOk (textStep env) = true) :
    (∀ resp part rest bytes, env.imageResult = .ok resp →
      resp.hasParts = true → resp.parts = part :: rest →
      part.inline_data = some bytes → env.uploadThrows = false →
      (processValidRow bucket_name file_name imagesBucket product_name
          keywords env).1.generated_image_url = env.publicUrl ∧
      Event.uploadImage imagesBucket
          (imageBlobName product_name env.timestamp) bytes "image/png" ∈
        (processValidRow bucket_name file_name imagesBucket product_name
          keywords env).2) ∧
    (∀ resp, env.imageResult = .ok resp →
      (resp.hasParts = false ∨ resp.parts = []) →
      (processValidRow bucket_name file_name imagesBucket product_name
          keywords env).1.generated_image_url = "Error: No image returned.") ∧
    (∀ e, env.imageResult = .error e →
      (processValidRow bucket_name file_name imagesBucket product_name
          keywords env).1.generated_image_url =
        "Error: Image generation failed.") ∧
    (∀ resp part rest, env.imageResult = .ok resp → resp.hasParts = true →
      resp.parts = part :: rest →
      (part.inline_data = none ∨ env.uploadThrows = true) →
      (processValidRow bucket_name file_name imagesBucket product_name
          keywords env).1.generated_image_url =
        "Error: Image generation failed.") := by
  have hurl := processValidRow_url bucket_name file_name imagesBucket
    product_name keywords env
  have hsnd := processValidRow_snd bucket_name file_name imagesBucket
    product_name keywords env
  rw [if_pos h] at hurl hsnd
  refine ⟨?_, ?_, ?_, ?_⟩
  · intro resp part rest bytes hr hh hparts hd hu
    have hstep := imageStep_success imagesBucket product_name (textStep env)
      env resp part rest bytes hr hh hparts hd hu
    constructor
    · rw [hurl, hstep]
    · rw [hsnd, hstep]
      simp
  · intro resp hr hp
    rw [hurl, imageStep_no_parts imagesBucket product_name (textStep env)
      env resp hr hp]
  · intro e hr
    rw [hurl, imageStep_error imagesBucket product_name (textStep env) env e hr]
  · intro resp part rest hr hh hparts hd
    rcases hd with hd | hu
    · rw [hurl, imageStep_first_part_no_data imagesBucket product_name
        (textStep env) env resp part rest hr hh hparts hd]
    · rcases hopt : part.inline_data with _ | bytes
      · rw [hurl, imageStep_first_part_no_data imagesBucket product_name
          (textStep env) env resp part rest hr hh hparts hopt]
      · rw [hurl, imageStep_upload_throws imagesBucket product_name
          (textStep env) env resp part rest bytes hr hh hparts hopt hu]

/-- A row oracle for the successful image path: one part carrying bytes. -/
def envImgOk : RowEnv :=
  { textResult := .ok "A nice product"
    imageResult := .ok { hasParts := true, parts := [{ inline_data := some [9, 8] }] }
    uploadThrows := false
    publicUrl := "https://storage.example.com/imgs/my_product_7.png"
    timestamp := 7
    processedAt := "2026-01-02T00:00:00" }

/-- Witness for the amended C3 at a concrete successful-upload row. -/
theorem c3_image_step_witness :
    textOk (textStep envImgOk) = true ∧
    ((∀ resp part rest bytes, envImgOk.imageResult = .ok resp →
      resp.hasParts = true → resp.parts = part :: rest →
      part.inline_data = some bytes → envImgOk.uploadThrows = false →
      (processValidRow "b" "f" (some "imgs") "My Product" "kw"
          envImgOk).1.generated_image_url = envImgOk.publicUrl ∧
      Event.uploadImage (some "imgs")
          (imageBlobName "My Product" envImgOk.timestamp) bytes "image/png" ∈
        (processValidRow "b" "f" (some "imgs") "My Product" "kw"
          envImgOk).2) ∧
    (∀ resp, envImgOk.imageResult = .ok resp →
      (resp.hasParts = false ∨ resp.parts = []) →
      (processValidRow "b" "f" (some "imgs") "My Product" "kw"
          envImgOk).1.generated_image_url = "Error: No image returned.") ∧
    (∀ e, envImgOk.imageResult = .error e →
      (processValidRow "b" "f" (some "imgs") "My Product" "kw"
          envImgOk).1.generated_image_url =
        "Error: Image generation failed.") ∧
    (∀ resp part rest, envImgOk.imageResult = .ok resp → resp.hasParts = true →
      resp.parts = part :: rest →
      (part.inline_data = none ∨ envImgOk.uploadThrows = true) →
      (processValidRow "b" "f" (some "imgs") "My Product" "kw"
          envImgOk).1.generated_image_url =
        "Error: Image generation failed.")) :=
  ⟨by decide, c3_image_step "b" "f" (some "imgs") "My Product" "kw" envImgOk
    (by decide)⟩

/-- A row oracle whose every external call raises. -/
def trivialRowEnv : RowEnv :=
  { textResult := .error ()
    imageResult := .error ()
    uploadThrows := true
    publicUrl := ""
    timestamp := 0
    processedAt := "" }

/-- A file oracle whose download/parse raises. -/
def envFileErr : FileEnv :=
  { download := .error ()
    copyThrows := false
    deleteThrows := false
    insertThrows := false
    rowEnvs := fun _ => trivialRowEnv }

/-- A file oracle for a well-formed file with a header and only skippable
data rows (one row with both fields blank, one row with a single field). -/
def envEmptyFile : FileEnv :=
  { download := .ok [["name", "keywords"], [" ", "  "], ["solo"]]
    copyThrows := false
    deleteThrows := false
    insertThrows := false
    rowEnvs := fun _ => trivialRowEnv }

/-- A configuration with every value present. -/
def cfgFull : Config :=
  { GCP_PROJECT_ID := some "proj"
    GCP_REGION := some "region"
    BQ_DATASET := some "ds"
    BQ_TABLE := some "tbl"
    FAILED_BUCKET_NAME := some "failed"
    PRODUCT_IMAGES_BUCKET_NAME := some "imgs"
    GOOGLE_API_KEY := some "key" }

/-- The same configuration with the API key unset. -/
def cfgNoKey : Config :=
  { cfgFull with GOOGLE_API_KEY := none }

/-- The same configuration with the quarantine bucket unset. -/
def cfgNoQuarantine : Config :=
  { cfgFull with FAILED_BUCKET_NAME := none }

/-- C4: an exception while downloading, reading the header (including an
empty file with no header row), or iterating rows quarantines the file —
the trace ends with the copy to the quarantine bucket under the same name
followed by the delete of the source object — and the invocation returns
(bare `return`, i.e. `none`) without any warehouse insert. -/
theorem c4_quarantine_on_error (cfg : Config) (env : FileEnv)
    (bucket_name file_name fb : String)
    (hkey : pyFalsy cfg.GOOGLE_API_KEY = false)
    (herr : env.download = .error () ∨ env.download = .ok [])
    (hfb : cfg.FAILED_BUCKET_NAME = some fb) (hne : fb ≠ "")
    (hc : env.copyThrows = false) (hd : env.deleteThrows = false) :
    (∀ rs, Event.bqInsert rs ∉
      (process_csv_and_generate_content cfg env bucket_name file_name).events) ∧
    [Event.copyBlob bucket_name fb file_name,
     Event.deleteBlob bucket_name file_name] <:+
      (process_csv_and_generate_content cfg env bucket_name file_name).events ∧
    (process_csv_and_generate_content cfg env bucket_name file_name).retVal =
      none := by
  have hmove := move_to_failed_bucket_ok cfg env bucket_name file_name fb
    hfb hne hc hd
  rcases herr with herr | herr
  · have hev : (process_csv_and_generate_content cfg env bucket_name
        file_name).events =
        [Event.copyBlob bucket_name fb file_name,
         Event.deleteBlob bucket_name file_name] := by
      simp [process_csv_and_generate_content, hkey, herr, hmove]
    refine ⟨fun rs => ?_, ?_, ?_⟩
    · simp [hev]
    · rw [hev]
    · simp [process_csv_and_generate_content, hkey, herr]
  · have hev : (process_csv_and_generate_content cfg env bucket_name
        file_name).events =
        Event.download bucket_name file_name ::
          [Event.copyBlob bucket_name fb file_name,
           Event.deleteBlob bucket_name file_name] := by
      simp [process_csv_and_generate_content, hkey, herr, hmove]
    refine ⟨fun rs => ?_, ?_, ?_⟩
    · simp [hev]
    · rw [hev]
      exact List.suffix_cons _ _
    · simp [process_csv_and_generate_content, hkey, herr]

/-- Witness for C4: a concrete invocation whose download raises. -/
theorem c4_quarantine_on_error_witness :
    (∀ rs, Event.bqInsert rs ∉
      (process_csv_and_generate_content cfgFull envFileErr "src" "data.csv").events) ∧
    [Event.copyBlob "src" "failed" "data.csv",
     Event.deleteBlob "src" "data.csv"] <:+
      (process_csv_and_generate_content cfgFull envFileErr "src" "data.csv").events ∧
    (process_csv_and_generate_content cfgFull envFileErr "src" "data.csv").retVal =
      none :=
  c4_quarantine_on_error cfgFull envFileErr "src" "data.csv" "failed"
    (by decide) (Or.inl rfl) rfl (by decide) rfl rfl

/-- C6: when the generative-service API key is absent the invocation
terminates before any processing: the event trace is empty (no download, no
model call, no insert, no quarantine move) and it returns early. -/
theorem c6_missing_api_key (cfg : Config) (env : FileEnv)
    (bucket_name file_name : String) (h : cfg.GOOGLE_API_KEY = none) :
    process_csv_and_generate_content cfg env bucket_name file_name =
      { events := [], retVal := none } := by
  simp [process_csv_and_generate_content, pyFalsy, h]

/-- Witness for C6 at a concrete key-less configuration. -/
theorem c6_missing_api_key_witness :
    process_csv_and_generate_content cfgNoKey envFileErr "src" "data.csv" =
      { events := [], retVal := none } :=
  c6_missing_api_key cfgNoKey envFileErr "src" "data.csv" rfl

/-- C7: the quarantine relocation is a no-op when the quarantine bucket is
not configured (the source file stays in place); a raising copy is caught
and yields no storage operation; a raising delete is caught after the
completed copy; and a download-error invocation still returns normally (the
caught quarantine failure never escapes the operation). -/
theorem c7_quarantine_safety (cfg : Config) (env : FileEnv)
    (bucket_name file_name : String) :
    (pyFalsy cfg.FAILED_BUCKET_NAME = true →
      move_to_failed_bucket cfg env bucket_name file_name = []) ∧
    (env.copyThrows = true →
      move_to_failed_bucket cfg env bucket_name file_name = []) ∧
    (∀ fb, cfg.FAILED_BUCKET_NAME = some fb → fb ≠ "" →
      env.copyThrows = false → env.deleteThrows = true →
      move_to_failed_bucket cfg env bucket_name file_name =
        [Event.copyBlob bucket_name fb file_name]) ∧
    (env.download = .error () → pyFalsy cfg.GOOGLE_API_KEY = false →
      (process_csv_and_generate_content cfg env bucket_name file_name).retVal =
        none) := by
  refine ⟨?_, ?_, ?_, ?_⟩
  · intro h
    rcases hfb : cfg.FAILED_BUCKET_NAME with _ | fb
    · simp [move_to_failed_bucket, hfb]
    · rw [hfb] at h
      simp only [pyFalsy, beq_iff_eq] at h
      simp [move_to_failed_bucket, hfb, h]
  · intro h
    rcases hfb : cfg.FAILED_BUCKET_NAME with _ | fb
    · simp [move_to_failed_bucket, hfb]
    · by_cases he : fb = ""
      · simp [move_to_failed_bucket, hfb, he]
      · simp [move_to_failed_bucket, hfb, he, h]
  · intro fb hfb hne hc hd
    simp [move_to_failed_bucket, hfb, hne, hc, hd]
  · intro hdl hkey
    simp [process_csv_and_generate_content, hkey, hdl]

/-- Witness for C7: concrete invocation with no quarantine bucket set. -/
theorem c7_quarantine_safety_witness :
    (pyFalsy cfgNoQuarantine.FAILED_BUCKET_NAME = true →
      move_to_failed_bucket cfgNoQuarantine envFileErr "src" "data.csv" = []) ∧
    (envFileErr.copyThrows = true →
      move_to_failed_bucket cfgNoQuarantine envFileErr "src" "data.csv" = []) ∧
    (∀ fb, cfgNoQuarantine.FAILED_BUCKET_NAME = some fb → fb ≠ "" →
      envFileErr.copyThrows = false → envFileErr.deleteThrows = true →
      move_to_failed_bucket cfgNoQuarantine envFileErr "src" "data.csv" =
        [Event.copyBlob "src" fb "data.csv"]) ∧
    (envFileErr.download = .error () →
      pyFalsy cfgNoQuarantine.GOOGLE_API_KEY = false →
      (process_csv_and_generate_content cfgNoQuarantine envFileErr "src"
          "data.csv").retVal = none) :=
  c7_quarantine_safety cfgNoQuarantine envFileErr "src" "data.csv"

/-- C8: a file with a readable header whose data rows all fail the validity
check inserts nothing, moves nothing to quarantine, and the handler reaches
its normal `return "OK"` — the empty-but-well-formed case is not treated as
the malformed case. -/
theorem c8_empty_wellformed (cfg : Config) (env : FileEnv)
    (bucket_name file_name : String) (header : List String)
    (dataRows : List (List String))
    (hkey : pyFalsy cfg.GOOGLE_API_KEY = false)
    (hdl : env.download = .ok (header :: dataRows))
    (hvalid : dataRows.filter validRow = []) :
    (∀ rs, Event.bqInsert rs ∉
      (process_csv_and_generate_content cfg env bucket_name file_name).events) ∧
    (∀ a b c, Event.copyBlob a b c ∉
      (process_csv_and_generate_content cfg env bucket_name file_name).events) ∧
    (∀ a b, Event.deleteBlob a b ∉
      (process_csv_and_generate_content cfg env bucket_name file_name).events) ∧
    (process_csv_and_generate_content cfg env bucket_name file_name).retVal =
      some "OK" := by
  have hinvalid : ∀ row ∈ dataRows, validRow row = false := by
    intro row hr
    have := List.filter_eq_nil_iff.mp hvalid row hr
    simpa using this
  have hrecs : rowsToInsert bucket_name file_name
      cfg.PRODUCT_IMAGES_BUCKET_NAME env.rowEnvs dataRows 0 = [] :=
    rowsToInsert_eq_nil bucket_name file_name cfg.PRODUCT_IMAGES_BUCKET_NAME
      env.rowEnvs dataRows 0 hvalid
  have hevs : rowsEvents bucket_name file_name
      cfg.PRODUCT_IMAGES_BUCKET_NAME env.rowEnvs dataRows 0 = [] :=
    rowsEvents_eq_nil bucket_name file_name cfg.PRODUCT_IMAGES_BUCKET_NAME
      env.rowEnvs dataRows 0 hinvalid
  have hev : (process_csv_and_generate_content cfg env bucket_name
      file_name).events = [Event.download bucket_name file_name] := by
    simp [process_csv_and_generate_content, hkey, hdl, hrecs, hevs]
  refine ⟨fun rs => ?_, fun a b c => ?_, fun a b => ?_, ?_⟩
  · simp [hev]
  · simp [hev]
  · simp [hev]
  · simp [process_csv_and_generate_content, hkey, hdl]

/-- Witness for C8: a concrete well-formed file whose two data rows are
both skippable (blank fields / fewer than two fields). -/
theorem c8_empty_wellformed_witness :
    (∀ rs, Event.bqInsert rs ∉
      (process_csv_and_generate_content cfgFull envEmptyFile "src"
        "data.csv").events) ∧
    (∀ a b c, Event.copyBlob a b c ∉
      (process_csv_and_generate_content cfgFull envEmptyFile "src"
        "data.csv").events) ∧
    (∀ a b, Event.deleteBlob a b ∉
      (process_csv_and_generate_content cfgFull envEmptyFile "src"
        "data.csv").events) ∧
    (process_csv_and_generate_content cfgFull envEmptyFile "src"
        "data.csv").retVal = some "OK" :=
  c8_empty_wellformed cfgFull envEmptyFile "src" "data.csv"
    ["name", "keywords"] [[" ", "  "], ["solo"]] (by decide) rfl (by decide)

/-- C9: every image upload performed while processing a row stores the
object under the product name with each space replaced by an underscore and
lowercased, then an underscore, the integer Unix timestamp and ".png", with
content-type "image/png". -/
theorem c9_upload_naming (bucket_name file_name : String)
    (imagesBucket b : Option String) (product_name keywords : String)
    (env : RowEnv) (n : String) (d : Bytes) (ct : String)
    (h : Event.uploadImage b n d ct ∈
      (processValidRow bucket_name file_name imagesBucket product_name
        keywords env).2) :
    n = pyLower (replaceSpaces product_name) ++ "_" ++
        toString env.timestamp ++ ".png" ∧
    ct = "image/png" := by
  rw [processValidRow_snd] at h
  rcases List.mem_cons.mp h with h | h
  · exact absurd h (by simp)
  · by_cases ht : textOk (textStep env) = true
    · rw [if_pos ht] at h
      have hmem := imageStep_upload_mem imagesBucket b product_name
        (textStep env) env n d ct h
      exact ⟨hmem.2.1, hmem.2.2⟩
    · rw [if_neg ht] at h
      simp at h

/-- Witness for C9 at the concrete successful-upload row of `envImgOk`. -/
theorem c9_upload_naming_witness :
    "my_product_7.png" = pyLower (replaceSpaces "My Product") ++ "_" ++
        toString envImgOk.timestamp ++ ".png" ∧
    "image/png" = "image/png" :=
  c9_upload_naming "b" "f" (some "imgs") (some "imgs") "My Product" "kw"
    envImgOk "my_product_7.png" [9, 8] "image/png" (by decide)

/-- C5: the dashboard's fixed query returns at most 20 rows, all drawn from
the table and all with a non-null image URL not beginning with "Error",
ordered by `processed_at` descending; the rendered card at result index `i`
is placed in grid column `i % 3`. -/
theorem c5_dashboard (table : List BqRow) :
    (dashboardQuery table).length ≤ 20 ∧
    (∀ r ∈ dashboardQuery table, r ∈ table ∧ r.generated_image_url ≠ none ∧
      ∀ u, r.generated_image_url = some u → strStartsWith u "Error" = false) ∧
    (dashboardQuery table).Pairwise
      (fun a b => b.processed_at ≤ a.processed_at) ∧
    (∀ i r, (dashboardQuery table)[i]? = some r →
      (galleryColumns (dashboardQuery table))[i]? = some (i % 3, r)) := by
  refine ⟨?_, ?_, ?_, ?_⟩
  · exact List.length_take_le 20 _
  · intro r hr
    have h1 : r ∈ (table.filter rowQualifies).mergeSort descByProcessedAt :=
      List.mem_of_mem_take hr
    have h2 : r ∈ table.filter rowQualifies := List.mem_mergeSort.mp h1
    have h3 := List.mem_filter.mp h2
    obtain ⟨u, hu, hs⟩ := (rowQualifies_iff r).mp h3.2
    refine ⟨h3.1, by simp [hu], ?_⟩
    intro u' hu'
    rw [hu] at hu'
    exact Option.some.inj hu' ▸ hs
  · refine List.Pairwise.sublist (List.take_sublist _ _) ?_
    exact (List.sorted_mergeSort descByProcessedAt_trans
        descByProcessedAt_total (table.filter rowQualifies)).imp
      (fun h => by simpa [descByProcessedAt] using h)
  · intro i r hr
    simp [galleryColumns, List.enum, hr]

/-- A concrete warehouse table: three qualifying rows (out of chronological
order), one NULL-url row, one error-marker row. -/
def demoTable : List BqRow :=
  [{ product_name := "A", keywords := "k1", generated_content := some "c1"
     generated_image_url := some "https://img/a.png"
     processed_at := "2026-01-01T00:00:00" },
   { product_name := "B", keywords := "k2", generated_content := some "c2"
     generated_image_url := none
     processed_at := "2026-01-05T00:00:00" },
   { product_name := "C", keywords := "k3", generated_content := some "c3"
     generated_image_url := some "Error: Image generation failed."
     processed_at := "2026-01-04T00:00:00" },
   { product_name := "D", keywords := "k4", generated_content := some "c4"
     generated_image_url := some "https://img/d.png"
     processed_at := "2026-01-03T00:00:00" },
   { product_name := "E", keywords := "k5", generated_content := some "c5"
     generated_image_url := some "Skipped: Text generation failed."
     processed_at := "2026-01-02T00:00:00" }]

/-- Witness for C5 at the concrete `demoTable`. -/
theorem c5_dashboard_witness :
    (dashboardQuery demoTable).length ≤ 20 ∧
    (∀ r ∈ dashboardQuery demoTable, r ∈ demoTable ∧
      r.generated_image_url ≠ none ∧
      ∀ u, r.generated_image_url = some u → strStartsWith u "Error" = false) ∧
    (dashboardQuery demoTable).Pairwise
      (fun a b => b.processed_at ≤ a.processed_at) ∧
    (∀ i r, (dashboardQuery demoTable)[i]? = some r →
      (galleryColumns (dashboardQuery demoTable))[i]? = some (i % 3, r)) :=
  c5_dashboard demoTable

/-- C10: a warehouse row whose image URL is the skip marker
"Skipped: Text generation failed." — exactly what the pipeline records when
text generation fails — passes the dashboard's WHERE clause (non-null, does
not begin with "Error") and is therefore selectable and renderable in the
gallery. -/
theorem c10_skip_marker_selected (bucket_name file_name : String)
    (imagesBucket : Option String) (product_name keywords : String)
    (env : RowEnv) (h : textOk (textStep env) = false) :
    (processValidRow bucket_name file_name imagesBucket product_name keywords
        env).1.generated_image_url = "Skipped: Text generation failed." ∧
    (∀ r : BqRow, r.generated_image_url =
        some (processValidRow bucket_name file_name imagesBucket product_name
          keywords env).1.generated_image_url →
      rowQualifies r = true ∧ dashboardQuery [r] = [r]) := by
  have hurl := processValidRow_url bucket_name file_name imagesBucket
    product_name keywords env
  rw [if_neg (by simp [h])] at hurl
  refine ⟨hurl, ?_⟩
  intro r hr
  rw [hurl] at hr
  have hq : rowQualifies r = true := by
    simp only [rowQualifies, hr]
    decide
  refine ⟨hq, ?_⟩
  simp [dashboardQuery, List.filter, hq]

/-- Witness for C10 at the concrete text-failure row of `envTextFail`. -/
theorem c10_skip_marker_selected_witness :
    (processValidRow "b" "f" (some "imgs") "Widget" "blue"
        envTextFail).1.generated_image_url =
      "Skipped: Text generation failed." ∧
    (∀ r : BqRow, r.generated_image_url =
        some (processValidRow "b" "f" (some "imgs") "Widget" "blue"
          envTextFail).1.generated_image_url →
      rowQualifies r = true ∧ dashboardQuery [r] = [r]) :=
  c10_skip_marker_selected "b" "f" (some "imgs") "Widget" "blue" envTextFail
    (by decide)

end Gallery
